import Mathlib

/-!
Verification development for the supply-chain analytics chatbot core:
the query router (`src/chatbot/utils/query_router.py`) and the RAG engine
(`src/chatbot/utils/rag_engine.py`).  Python strings are embedded as
`List Char` where character-level operations matter and as `String`
elsewhere; Python dictionaries with optional keys become structures with
`Option` fields; Python exceptions become `Except String`.
-/

namespace SCAP

/-! ## Python string primitives (embedding of `str.strip`, slicing,
`startswith`/`endswith`) over `List Char` -/

/-- Python `str.strip()`: drop whitespace from both ends. -/
def pystrip (s : List Char) : List Char :=
  ((s.dropWhile Char.isWhitespace).reverse.dropWhile Char.isWhitespace).reverse

/-- The three-backtick fence `\x60\x60\x60`. -/
def fence3 : List Char := ['`', '`', '`']

/-- The fenced tag `\x60\x60\x60sql`. -/
def tagSql : List Char := ['`', '`', '`', 's', 'q', 'l']

/-- Statement `if sql_query.startswith("\x60\x60\x60sql"): sql_query = sql_query[6:]`. -/
def dropTag (s : List Char) : List Char :=
  if tagSql.isPrefixOf s then s.drop 6 else s

/-- Statement `if sql_query.startswith("\x60\x60\x60"): sql_query = sql_query[3:]`. -/
def dropOpenFence (s : List Char) : List Char :=
  if fence3.isPrefixOf s then s.drop 3 else s

/-- Statement `if sql_query.endswith("\x60\x60\x60"): sql_query = sql_query[:-3]`
(Python slicing `[:-3]` is `take (length - 3)`). -/
def dropCloseFence (s : List Char) : List Char :=
  if fence3.isSuffixOf s then s.take (s.length - 3) else s

/-- Embedding of the post-processing in `QueryRouter._generate_sql`
(query_router.py lines 100-109): strip, drop a leading ```sql tag, drop a
leading ``` fence, drop a trailing ``` fence, strip again — the four
sequential statements applied in source order. -/
def clean_sql (raw : List Char) : List Char :=
  pystrip (dropCloseFence (dropOpenFence (dropTag (pystrip raw))))

/-- The function `clean_sql` lifted to `String` (used by the router model). -/
def cleanSqlStr (raw : String) : String :=
  ⟨clean_sql raw.data⟩

/-- Python `str.strip()` lifted to `String`. -/
def pyStripStr (s : String) : String :=
  ⟨pystrip s.data⟩

/-- Python `str.lower()`: lower-case every character. -/
def pyLowerStr (s : String) : String :=
  ⟨s.data.map Char.toLower⟩

/-- Boolean substring test: `pat` occurs contiguously in `s`. -/
def hasSubstr (pat s : List Char) : Bool :=
  (List.range (s.length + 1)).any (fun i => pat.isPrefixOf (s.drop i))

/-! ## Python number formatting -/

/-- Insert a `,` after every third character of a reversed digit string. -/
def group3 : List Char → List Char
  | a :: b :: c :: d :: rest => a :: b :: c :: ',' :: group3 (d :: rest)
  | l => l

/-- Python `f"\x7bn:,.2f\x7d"` for an integer value: thousands separators
and exactly two decimal places. -/
def intComma2 (n : Int) : String :=
  let sign := if n < 0 then "-" else ""
  let digits := (toString n.natAbs).data
  sign ++ String.mk ((group3 digits.reverse).reverse) ++ ".00"

/-! ## pandas DataFrame model

A table is a list of named, dtype-tagged columns plus a list of rows.
Cells are either integers (numeric dtype) or strings (object dtype);
the claims only exercise integer-valued numeric columns. -/

/-- A cell value. -/
inductive Val where
  | int (n : Int)
  | str (s : String)
deriving DecidableEq, Repr

/-- Python `str(v)` for a cell. -/
def Val.pyStr : Val → String
  | .int n => toString n
  | .str s => s

/-- A pandas DataFrame: `cols` pairs each column name with whether its
dtype is numeric (`select_dtypes(include=[number])` keeps it); `rows`
lists the cells of each row in column order. -/
structure DataFrame where
  cols : List (String × Bool)
  rows : List (List Val)
deriving DecidableEq, Repr

/-- Names of the numeric-dtype columns, in column order
(`df.select_dtypes(include=[number]).columns`). -/
def DataFrame.numericCols (d : DataFrame) : List String :=
  (d.cols.filter (·.2)).map (·.1)

/-- Python `df[name].sum()`: sum the column named `name`; `none` models the
exception pandas raises when a cell is not numeric or a row is short. -/
def DataFrame.colSum (d : DataFrame) (name : String) : Option Int :=
  let i := d.cols.findIdx (fun p => p.1 == name)
  d.rows.foldr
    (fun r acc =>
      match acc, r.get? i with
      | some a, some (.int n) => some (a + n)
      | _, _ => none)
    (some 0)

/-- One pass of the enumeration loop in `_generate_natural_response`:
`"• \x7brow.iloc[0]\x7d: \x7brow.iloc[1]:,.2f\x7d\n"` per row; `none` models the
exception raised when `iloc[1]` is not numeric or a row is short. -/
def enumRows : List (List Val) → Option String
  | [] => some ""
  | r :: rs =>
    match r.get? 0, r.get? 1 with
    | some v0, some (.int n) =>
      match enumRows rs with
      | some rest => some ("• " ++ v0.pyStr ++ ": " ++ intComma2 n ++ "\n" ++ rest)
      | none => none
    | _, _ => none

/-- The fixed no-data message of `_generate_natural_response`. -/
def noDataMsg : String :=
  "I couldn't find any data matching your query. Please try rephrasing your question."

/-- Embedding of `QueryRouter._generate_natural_response`
(query_router.py lines 120-144).  `none` input models `df is None`;
`Except.error` models a formatting exception escaping the method. -/
def generate_natural_response (df : Option DataFrame) : Except String String :=
  match df with
  | none => .ok noDataMsg
  | some d =>
    if d.rows.length = 0 then .ok noDataMsg
    else
      let s0 := "Found " ++ toString d.rows.length ++ " results. "
      if 2 ≤ d.cols.length then
        match d.numericCols with
        | [] => .ok s0
        | fn :: _ =>
          match d.colSum fn with
          | none => .error "TypeError: cannot sum non-numeric column"
          | some total =>
            let s1 := s0 ++ "The total " ++ fn ++ " is " ++ intComma2 total ++ ". "
            if d.rows.length ≤ 10 then
              match enumRows (d.rows.take 10) with
              | some lines => .ok (s1 ++ "Here are all the results:\n\n" ++ lines)
              | none => .error "ValueError: cannot format row"
            else .ok (s1 ++ "Top 10 results shown below.")
      else .ok s0

/-! ## RAG engine / Document Store model (rag_engine.py)

The vector store (FAISS) and the embedding provider are external
libraries, so the Document Store behaviour is modelled from the spec's
§4.3 contract; `RAGEngine` methods are embedded from the source. -/

/-- A knowledge chunk held by the Document Store: its text, the
provenance tag from the parent document's metadata, and its embedding
vector (rational components; vectors are normalized upstream). -/
structure Chunk where
  text : String
  source_tag : String
  vec : List ℚ
deriving DecidableEq, Repr

/-- Dot product of two vectors; on normalized vectors this is the cosine
similarity the spec prescribes. -/
def dot : List ℚ → List ℚ → ℚ
  | a :: as, b :: bs => a * b + dot as bs
  | _, _ => 0

/-- Similarity score of a stored chunk against the embedded query. -/
def simScore (qv : List ℚ) (c : Chunk) : ℚ := dot qv c.vec

/-- A store entry paired with its insertion index and its similarity
score for the current query. -/
structure Entry where
  idx : Nat
  sim : ℚ
  chunk : Chunk
deriving DecidableEq, Repr

/-- Ranking order on entries: higher similarity first, ties broken by
insertion order (earliest inserted first). -/
def rankLE (a b : Entry) : Prop :=
  b.sim < a.sim ∨ (a.sim = b.sim ∧ a.idx ≤ b.idx)

instance : DecidableRel rankLE := fun a b => by
  unfold rankLE; infer_instance

instance : IsTotal Entry rankLE :=
  ⟨fun a b => by
    rcases lt_trichotomy b.sim a.sim with h | h | h
    · exact Or.inl (Or.inl h)
    · rcases Nat.le_total a.idx b.idx with hi | hi
      · exact Or.inl (Or.inr ⟨h.symm, hi⟩)
      · exact Or.inr (Or.inr ⟨h, hi⟩)
    · exact Or.inr (Or.inl h)⟩

instance : IsTrans Entry rankLE :=
  ⟨fun a b c hab hbc => by
    rcases hab with h1 | ⟨h1, i1⟩ <;> rcases hbc with h2 | ⟨h2, i2⟩
    · exact Or.inl (by linarith)
    · exact Or.inl (by rw [← h2]; exact h1)
    · exact Or.inl (by rw [h1]; exact h2)
    · exact Or.inr ⟨h1.trans h2, i1.trans i2⟩⟩

/-- Pair every stored chunk with its insertion index (starting at `i`)
and its similarity score for the query vector. -/
def mkEntries (qv : List ℚ) : Nat → List Chunk → List Entry
  | _, [] => []
  | i, c :: cs => ⟨i, simScore qv c, c⟩ :: mkEntries qv (i + 1) cs

/-- Modelled from the spec: the `FAISS.similarity_search` ranking (the
Document Store contract of §4.3 — external library code, not under
`src/`): score every stored chunk against the query vector, order by
descending similarity with ties broken by insertion order (earliest
inserted first), and return at most `k` entries. -/
def rankedQuery (store : List Chunk) (qv : List ℚ) (k : Nat) : List Entry :=
  ((mkEntries qv 0 store).insertionSort rankLE).take k

namespace RAGEngine

/-- Embedding of `RAGEngine.retrieve_context` (rag_engine.py lines
185-191): an absent/empty store yields `[]`, otherwise delegate to the
store's similarity search.  The query arrives already embedded as `qv`. -/
def retrieve_context (store : List Chunk) (qv : List ℚ) (k : Nat) : List Chunk :=
  if store.isEmpty then [] else (rankedQuery store qv k).map (·.chunk)

/-- Embedding of the formatting half of `RAGEngine.get_relevant_context`
(rag_engine.py lines 193-205): the fixed sentinel for an empty chunk
list, otherwise numbered "Context N (Source: tag)" blocks joined by
blank lines, preserving retrieval order. -/
def format_context (docs : List Chunk) : String :=
  if docs.isEmpty then "No relevant context found."
  else
    String.intercalate "\n\n"
      (docs.enum.map
        (fun p => "Context " ++ toString (p.1 + 1) ++ " (Source: " ++
          p.2.source_tag ++ "):\n" ++ p.2.text))

/-- Embedding of `RAGEngine.get_relevant_context` (rag_engine.py lines
193-205): retrieve with the default `k = 3` and format. -/
def get_relevant_context (store : List Chunk) (qv : List ℚ) : String :=
  format_context (retrieve_context store qv 3)

/-- Modelled from the spec: `FAISS.add_documents` / `FAISS.from_documents`
(the Document Store insertion of §4.3 — external library code, not under
`src/`): insertion appends the new chunks after the existing ones,
preserving insertion order; nothing is deleted. -/
def storeInsert (store new : List Chunk) : List Chunk := store ++ new

/-- A raw document handed to `RAGEngine.add_documents`: text plus the
source tag of its metadata. -/
structure Doc where
  page_content : String
  source : String
deriving DecidableEq, Repr

/-- Embedding of `RAGEngine.add_documents` (rag_engine.py lines 177-183):
split and embed each document (the external text splitter plus embedding
provider are abstracted as `chunksOf`), then insert the resulting chunks
into the store; an absent store behaves as inserting into an empty one. -/
def add_documents (chunksOf : Doc → List Chunk) (store : List Chunk)
    (docs : List Doc) : List Chunk :=
  storeInsert store (docs.map chunksOf).flatten

end RAGEngine

/-! ## Query Router model (query_router.py)

The language-model gateway and the warehouse client are external
collaborators invoked through `Collab`; each call returns
`Except String _`, the embedding of a Python call that may raise. -/

namespace QueryRouter

/-- The dictionary returned by `QueryRouter.process_query`; a key absent
from the Python dict is `none`. -/
structure RouterResult where
  answer : String
  dataframe : Option DataFrame
  sql_query : Option String
  error : Option String
deriving DecidableEq, Repr

/-- The outward calls the router can make, recorded in invocation order. -/
inductive Call where
  | classify
  | retrieve
  | explainLLM
  | genSql
  | execute
deriving DecidableEq, Repr

/-- External collaborators: raw language-model completions for the three
prompts, warehouse execution, and the embedding provider used inside the
RAG engine.  Arguments of the generation calls are the values
interpolated into the prompt templates. -/
structure Collab where
  rawClassify : String → Except String String
  rawGenSql : String → String → String → Except String String
  rawExplain : String → String → Except String String
  execute_query : String → Except String DataFrame
  emb : String → Except String (List ℚ)

/-- The router's per-instance state: the Schema Catalog snapshot taken at
construction and the RAG engine's document store. -/
structure RouterState where
  schema_info : List (String × List (String × String))
  store : List Chunk
deriving DecidableEq, Repr

/-- Embedding of `QueryRouter._format_schema_info` (query_router.py lines
111-118): serialize the schema dict in catalog order. -/
def format_schema_info (si : List (String × List (String × String))) : String :=
  si.foldl
    (fun acc t =>
      t.2.foldl (fun a c => a ++ "  - " ++ c.1 ++ " (" ++ c.2 ++ ")\n")
        (acc ++ "\n" ++ t.1 ++ ":\n"))
    ""

/-- Embedding of `QueryRouter._classify_query` (query_router.py lines
47-64): one language-model call, then Python `.strip().lower()` on the
raw response. -/
def classify_query (c : Collab) (q : String) : Except String String :=
  (c.rawClassify q).map (fun s => pyLowerStr (pyStripStr s))

/-- Embedding of `QueryRouter._generate_sql` (query_router.py lines
66-109): one language-model call over schema, context and question, then
the code-fence cleanup `clean_sql`. -/
def generate_sql (c : Collab) (st : RouterState) (q context : String) :
    Except String String :=
  (c.rawGenSql (format_schema_info st.schema_info) context q).map cleanSqlStr

/-- The RAG call made by `process_query`
(`self.rag_engine.get_relevant_context(query)`): with an absent/empty
store no embedding happens and the sentinel is returned; otherwise the
question is embedded (which may fail) and the store is searched. -/
def get_relevant_contextE (c : Collab) (st : RouterState) (q : String) :
    Except String String :=
  if st.store.isEmpty then .ok "No relevant context found."
  else (c.emb q).map (fun qv => RAGEngine.get_relevant_context st.store qv)

/-- The canned greeting/capability answer of the `general` branch. -/
def greeting : String :=
  "Hello! I'm your Supply Chain Analytics assistant. I can help you analyze sales data, product performance, store metrics, and more. What would you like to know?"

/-- The user-readable failure answer built in the `except` clause. -/
def errAnswer (e : String) : String :=
  "I encountered an error processing your query: " ++ e ++
    "\n\nPlease try rephrasing your question or check the Snowflake connection."

/-- The transparency block appended to a data-query answer
(query_router.py line 193). -/
def sqlDetails (sql : String) : String :=
  "\n\n<details>\n<summary>SQL Query Used</summary>\n\n```sql\n" ++ sql ++
    "\n```\n</details>"

/-- The body of the `try` block of `QueryRouter.process_query`
(query_router.py lines 149-199), also recording the outward calls made,
in order.  An `Except.error` is an exception about to hit the `except`
clause. -/
def process_query_core (c : Collab) (st : RouterState) (q : String) :
    Except String RouterResult × List Call :=
  match classify_query c q with
  | .error e => (.error e, [.classify])
  | .ok query_type =>
    if query_type = "general" then
      (.ok ⟨greeting, none, none, none⟩, [.classify])
    else
      match get_relevant_contextE c st q with
      | .error e => (.error e, [.classify, .retrieve])
      | .ok context =>
        if query_type = "explanation" then
          match c.rawExplain context q with
          | .error e => (.error e, [.classify, .retrieve, .explainLLM])
          | .ok answer =>
            (.ok ⟨answer, none, none, none⟩, [.classify, .retrieve, .explainLLM])
        else
          match generate_sql c st q context with
          | .error e => (.error e, [.classify, .retrieve, .genSql])
          | .ok sql_query =>
            match c.execute_query sql_query with
            | .error e => (.error e, [.classify, .retrieve, .genSql, .execute])
            | .ok df =>
              match generate_natural_response (some df) with
              | .error e => (.error e, [.classify, .retrieve, .genSql, .execute])
              | .ok answer =>
                (.ok ⟨answer ++ sqlDetails sql_query, some df, some sql_query, none⟩,
                  [.classify, .retrieve, .genSql, .execute])

/-- Embedding of `QueryRouter.process_query` (query_router.py lines
146-206): run the `try` body; on an exception return the structured
failure dictionary.  The router state is returned alongside to make the
absence of mutation checkable. -/
def process_query (c : Collab) (st : RouterState) (q : String) :
    RouterState × RouterResult × List Call :=
  match process_query_core c st q with
  | (.ok r, t) => (st, r, t)
  | (.error e, t) => (st, ⟨errAnswer e, none, none, some e⟩, t)

end QueryRouter

/-! ## Helper lemmas -/

lemma dropWhile_head_not {p : Char → Bool} {l : List Char} {c : Char}
    (h : (l.dropWhile p).head? = some c) : p c = false := by
  induction l with
  | nil => simp at h
  | cons a l ih =>
    rw [List.dropWhile_cons] at h
    by_cases hp : p a
    · rw [if_pos hp] at h; exact ih h
    · rw [if_neg hp, List.head?_cons] at h
      obtain rfl := Option.some.inj h
      exact Bool.eq_false_iff.mpr hp

lemma getLast?_append_ne_nil {l₁ l₂ : List Char} (h : l₂ ≠ []) :
    (l₁ ++ l₂).getLast? = l₂.getLast? := by
  cases hb : l₂.getLast? with
  | none => exact absurd (List.getLast?_eq_none_iff.mp hb) h
  | some b => rw [List.getLast?_append, hb]; rfl

lemma getLast?_suffix_ne_nil {l₁ l₂ : List Char} (h : l₁ <:+ l₂) (hne : l₁ ≠ []) :
    l₁.getLast? = l₂.getLast? := by
  obtain ⟨t, rfl⟩ := h
  exact (getLast?_append_ne_nil hne).symm

lemma pystrip_eq_self {s : List Char}
    (h1 : ∀ c, s.head? = some c → c.isWhitespace = false)
    (h2 : ∀ c, s.getLast? = some c → c.isWhitespace = false) :
    pystrip s = s := by
  unfold pystrip
  have hd : s.dropWhile Char.isWhitespace = s := by
    cases s with
    | nil => rfl
    | cons a l =>
      rw [List.dropWhile_cons, if_neg]
      rw [h1 a rfl]
      simp
  rw [hd]
  cases hr : s.reverse with
  | nil =>
    have h0 : s = [] := by simpa using congrArg List.reverse hr
    subst h0; rfl
  | cons b m =>
    have hb : s.getLast? = some b := by
      rw [← List.head?_reverse, hr]; rfl
    rw [List.dropWhile_cons, if_neg (by rw [h2 b hb]; simp)]
    rw [← hr, List.reverse_reverse]

lemma pystrip_getLast_not_ws {s : List Char} {c : Char}
    (h : (pystrip s).getLast? = some c) : c.isWhitespace = false := by
  unfold pystrip at h
  rw [List.getLast?_reverse] at h
  exact dropWhile_head_not h

lemma pystrip_head_not_ws {s : List Char} {c : Char}
    (h : (pystrip s).head? = some c) : c.isWhitespace = false := by
  unfold pystrip at h
  rw [List.head?_reverse] at h
  set X := List.dropWhile Char.isWhitespace ((s.dropWhile Char.isWhitespace).reverse)
    with hX
  have hne : X ≠ [] := by
    intro h0; rw [h0] at h; simp at h
  have hsuf : X <:+ (s.dropWhile Char.isWhitespace).reverse := List.dropWhile_suffix _
  rw [getLast?_suffix_ne_nil hsuf hne, List.getLast?_reverse] at h
  exact dropWhile_head_not h

lemma pystrip_idem (s : List Char) : pystrip (pystrip s) = pystrip s :=
  pystrip_eq_self (fun _ h => pystrip_head_not_ws h)
    (fun _ h => pystrip_getLast_not_ws h)

lemma mkEntries_map_chunk (qv : List ℚ) :
    ∀ (i : Nat) (cs : List Chunk), (mkEntries qv i cs).map (·.chunk) = cs
  | _, [] => rfl
  | i, c :: cs => by
    simp only [mkEntries, List.map_cons, mkEntries_map_chunk qv (i + 1) cs]

lemma mkEntries_length (qv : List ℚ) :
    ∀ (i : Nat) (cs : List Chunk), (mkEntries qv i cs).length = cs.length
  | _, [] => rfl
  | i, c :: cs => by
    simp only [mkEntries, List.length_cons, mkEntries_length qv (i + 1) cs]

lemma mem_mkEntries {qv : List ℚ} {i : Nat} {cs : List Chunk} {e : Entry}
    (h : e ∈ mkEntries qv i cs) :
    e.chunk ∈ cs ∧ e.sim = simScore qv e.chunk ∧ i ≤ e.idx ∧
      cs[e.idx - i]? = some e.chunk := by
  induction cs generalizing i with
  | nil => simp [mkEntries] at h
  | cons c cs ih =>
    rw [mkEntries] at h
    rcases List.mem_cons.mp h with rfl | h
    · exact ⟨List.mem_cons_self c cs, rfl, Nat.le_refl i, by simp⟩
    · obtain ⟨h1, h2, h3, h4⟩ := ih h
      refine ⟨List.mem_cons_of_mem c h1, h2, by omega, ?_⟩
      have hi : e.idx - i = (e.idx - (i + 1)) + 1 := by omega
      rw [hi, List.getElem?_cons_succ]
      exact h4

lemma rankedQuery_pairwise (store : List Chunk) (qv : List ℚ) (k : Nat) :
    (rankedQuery store qv k).Pairwise rankLE :=
  (List.sorted_insertionSort rankLE _).sublist (List.take_sublist _ _)

lemma mem_rankedQuery {store : List Chunk} {qv : List ℚ} {k : Nat} {e : Entry}
    (h : e ∈ rankedQuery store qv k) :
    e.chunk ∈ store ∧ e.sim = simScore qv e.chunk ∧ store[e.idx]? = some e.chunk := by
  have h1 : e ∈ mkEntries qv 0 store :=
    (List.mem_insertionSort rankLE).mp (List.mem_of_mem_take h)
  obtain ⟨ha, hb, _, hd⟩ := mem_mkEntries h1
  exact ⟨ha, hb, by simpa using hd⟩

lemma rankedQuery_perm {store : List Chunk} {qv : List ℚ} {k : Nat}
    (h : store.length ≤ k) :
    ((rankedQuery store qv k).map (·.chunk)).Perm store := by
  unfold rankedQuery
  rw [List.take_of_length_le]
  · have hperm :=
      (List.perm_insertionSort rankLE (mkEntries qv 0 store)).map
        (fun e : Entry => e.chunk)
    rw [mkEntries_map_chunk] at hperm
    exact hperm
  · rw [List.length_insertionSort, mkEntries_length]; exact h

lemma prefix_cancel_fence {x : List Char} (h : tagSql <+: fence3 ++ x) :
    ['s', 'q', 'l'] <+: x := by
  obtain ⟨u, hu⟩ := h
  have htag : tagSql = fence3 ++ ['s', 'q', 'l'] := rfl
  rw [htag, List.append_assoc] at hu
  exact ⟨u, List.append_cancel_left hu⟩

lemma sql_not_prefix_append_fence {t : List Char} (hne : t ≠ [])
    (hsql : ¬ (['s', 'q', 'l'] <+: t)) :
    ¬ (['s', 'q', 'l'] <+: t ++ fence3) := by
  intro h
  obtain ⟨u, hu⟩ := h
  cases t with
  | nil => exact hne rfl
  | cons a t1 =>
    cases t1 with
    | nil =>
      simp only [fence3, List.cons_append, List.nil_append] at hu
      injection hu with h1 hu1
      injection hu1 with h2 hu2
      exact absurd h2 (by decide)
    | cons b t2 =>
      cases t2 with
      | nil =>
        simp only [fence3, List.cons_append, List.nil_append] at hu
        injection hu with h1 hu1
        injection hu1 with h2 hu2
        injection hu2 with h3 hu3
        exact absurd h3 (by decide)
      | cons cc t3 =>
        simp only [List.cons_append, List.nil_append] at hu
        injection hu with h1 hu1
        injection hu1 with h2 hu2
        injection hu2 with h3 hu3
        exact hsql ⟨t3, by rw [h1, h2, h3]; rfl⟩

lemma backtick_not_prefix_append {t : List Char} (hne : t ≠ [])
    (hbt : ∀ ch ∈ t, ch ≠ '`') : ¬ (fence3 <+: t ++ fence3) := by
  intro h
  obtain ⟨u, hu⟩ := h
  cases t with
  | nil => exact hne rfl
  | cons a t1 =>
    simp only [fence3, List.cons_append, List.nil_append] at hu
    injection hu with h1 _
    exact hbt a (List.mem_cons_self a t1) h1.symm

lemma pystrip_tick_wrap (w : List Char) :
    pystrip ('`' :: (w ++ fence3)) = '`' :: (w ++ fence3) := by
  apply pystrip_eq_self
  · intro c h
    rw [List.head?_cons] at h
    obtain rfl := Option.some.inj h
    decide
  · intro c h
    have hl : ('`' :: (w ++ fence3)).getLast? = some '`' := by
      have hsh : ('`' :: (w ++ fence3)) = ('`' :: w) ++ fence3 := by simp
      rw [hsh, getLast?_append_ne_nil (by decide)]
      decide
    rw [hl] at h
    obtain rfl := Option.some.inj h
    decide

lemma dropTag_of_not {s : List Char} (h : ¬ (tagSql <+: s)) : dropTag s = s := by
  unfold dropTag
  exact if_neg (fun hp => h (List.isPrefixOf_iff_prefix.mp hp))

lemma dropTag_append (x : List Char) : dropTag (tagSql ++ x) = x := by
  unfold dropTag
  rw [if_pos]
  · exact List.drop_left tagSql x
  · rw [List.isPrefixOf_iff_prefix]
    exact List.prefix_append tagSql x

lemma dropOpenFence_of_not {s : List Char} (h : ¬ (fence3 <+: s)) :
    dropOpenFence s = s := by
  unfold dropOpenFence
  exact if_neg (fun hp => h (List.isPrefixOf_iff_prefix.mp hp))

lemma dropOpenFence_append (x : List Char) : dropOpenFence (fence3 ++ x) = x := by
  unfold dropOpenFence
  rw [if_pos]
  · exact List.drop_left fence3 x
  · rw [List.isPrefixOf_iff_prefix]
    exact List.prefix_append fence3 x

lemma dropCloseFence_of_not {s : List Char} (h : ¬ (fence3 <:+ s)) :
    dropCloseFence s = s := by
  unfold dropCloseFence
  exact if_neg (fun hp => h (List.isSuffixOf_iff_suffix.mp hp))

lemma dropCloseFence_append (x : List Char) : dropCloseFence (x ++ fence3) = x := by
  unfold dropCloseFence
  rw [if_pos]
  · have hlen : (x ++ fence3).length - 3 = x.length := by simp [fence3]
    rw [hlen]
    exact List.take_left x fence3
  · rw [List.isSuffixOf_iff_suffix]
    exact List.suffix_append x fence3

/-! ## Claim theorems -/

/-- C1: for every question whose classification result (the trimmed,
lower-cased model response) equals "general", `process_query` returns the
fixed greeting/capability answer with no tabular result, and the only
outward call made is the classification itself — no retrieval call and no
query-generation call. -/
theorem C1_general_fixed_greeting (c : QueryRouter.Collab)
    (st : QueryRouter.RouterState) (q raw : String)
    (hc : c.rawClassify q = .ok raw)
    (hg : pyLowerStr (pyStripStr raw) = "general") :
    QueryRouter.process_query c st q =
      (st, ⟨QueryRouter.greeting, none, none, none⟩, [QueryRouter.Call.classify]) := by
  unfold QueryRouter.process_query QueryRouter.process_query_core
    QueryRouter.classify_query
  rw [hc]
  simp [Except.map, hg]

/-- Witness for C1: a concrete collaborator whose classifier answers
" General " (trimming and lower-casing to "general"). -/
theorem C1_general_fixed_greeting_witness :
    (QueryRouter.Collab.mk (fun _ => .ok " General ") (fun _ _ _ => .ok "")
        (fun _ _ => .ok "") (fun _ => .ok ⟨[], []⟩)
        (fun _ => .ok [])).rawClassify "hi" = .ok " General " ∧
    pyLowerStr (pyStripStr " General ") = "general" ∧
    QueryRouter.process_query
        (QueryRouter.Collab.mk (fun _ => .ok " General ") (fun _ _ _ => .ok "")
          (fun _ _ => .ok "") (fun _ => .ok ⟨[], []⟩) (fun _ => .ok []))
        ⟨[], []⟩ "hi" =
      (⟨[], []⟩, ⟨QueryRouter.greeting, none, none, none⟩,
        [QueryRouter.Call.classify]) :=
  ⟨rfl, by decide, C1_general_fixed_greeting _ _ _ _ rfl (by decide)⟩

/-- C3 counterexample: on a table with a single numeric column holding
10, 20, 30, the summarization yields only the row-count sentence — it
does not state a total of 60.00 (no "60.00" substring occurs) and
enumerates no rows, because the totals branch requires at least two
columns. -/
theorem C3_counterexample_single_column :
    generate_natural_response
        (some ⟨[("AMOUNT", true)], [[.int 10], [.int 20], [.int 30]]⟩) =
      .ok "Found 3 results. " ∧
    hasSubstr "60.00".data "Found 3 results. ".data = false :=
  ⟨rfl, by decide⟩

/-- C3 (amended): for a result table with at least two columns whose
first numeric column holds 10, 20, 30 over 3 rows, the summary states a
total of 60.00 and enumerates all 3 rows; for such a table with 15 rows
(values 1..15), the summary states the total and notes that only the top
results are shown, enumerating none of the 15 rows. -/
theorem C3_summary_amended :
    generate_natural_response
        (some ⟨[("PRODUCT_NAME", false), ("TOTAL_AMOUNT", true)],
               [[.str "A", .int 10], [.str "B", .int 20], [.str "C", .int 30]]⟩) =
      .ok "Found 3 results. The total TOTAL_AMOUNT is 60.00. Here are all the results:\n\n• A: 10.00\n• B: 20.00\n• C: 30.00\n" ∧
    generate_natural_response
        (some ⟨[("PRODUCT_NAME", false), ("TOTAL_AMOUNT", true)],
               (List.range 15).map
                 (fun i => [.str ("P" ++ toString i), .int (Int.ofNat i + 1)])⟩) =
      .ok "Found 15 results. The total TOTAL_AMOUNT is 120.00. Top 10 results shown below." :=
  ⟨rfl, rfl⟩

/-- C5: for `k = 0` or an empty document store, `retrieve_context`
returns the empty list (never an error — it is a total function), and
formatting that result yields exactly the fixed sentinel string. -/
theorem C5_empty_retrieval_sentinel (store : List Chunk) (qv : List ℚ) (k : Nat)
    (h : k = 0 ∨ store = []) :
    RAGEngine.retrieve_context store qv k = [] ∧
    RAGEngine.format_context (RAGEngine.retrieve_context store qv k) =
      "No relevant context found." := by
  have hr : RAGEngine.retrieve_context store qv k = [] := by
    unfold RAGEngine.retrieve_context
    rcases h with rfl | rfl
    · split
      · rfl
      · simp [rankedQuery]
    · rfl
  exact ⟨hr, by rw [hr]; rfl⟩

/-- Witness for C5 at `k = 0` over a one-chunk store. -/
theorem C5_empty_retrieval_sentinel_witness :
    ((0 : Nat) = 0 ∨ [Chunk.mk "t" "s" [1]] = []) ∧
    (RAGEngine.retrieve_context [Chunk.mk "t" "s" [1]] [1] 0 = [] ∧
      RAGEngine.format_context (RAGEngine.retrieve_context [Chunk.mk "t" "s" [1]] [1] 0) =
        "No relevant context found.") :=
  ⟨Or.inl rfl, C5_empty_retrieval_sentinel _ _ _ (Or.inl rfl)⟩

/-- C6: whenever the try body of `process_query` raises an exception `e`
(from classification, retrieval, generation or execution), the caught
result has the user-readable failure answer and carries the raw error
text in its `error` field; no exception crosses the router boundary
(`process_query` is total). -/
theorem C6_error_wrapping (c : QueryRouter.Collab) (st : QueryRouter.RouterState)
    (q e : String) (h : (QueryRouter.process_query_core c st q).1 = .error e) :
    (QueryRouter.process_query c st q).2.1 =
      ⟨QueryRouter.errAnswer e, none, none, some e⟩ := by
  unfold QueryRouter.process_query
  rcases hcore : QueryRouter.process_query_core c st q with ⟨res, t⟩
  rw [hcore] at h
  cases res with
  | ok r => exact absurd h (by simp)
  | error e' =>
    obtain rfl : e' = e := by simpa using h
    rfl

/-- Witness for C6: a warehouse whose execution raises a connectivity
error; the router returns the wrapped failure result. -/
theorem C6_error_wrapping_witness :
    (QueryRouter.process_query_core
        (QueryRouter.Collab.mk (fun _ => .ok "data_query") (fun _ _ _ => .ok "SELECT 1")
          (fun _ _ => .ok "")
          (fun _ => .error "Query execution failed: could not connect to Snowflake")
          (fun _ => .ok []))
        ⟨[], []⟩ "total revenue").1 =
      .error "Query execution failed: could not connect to Snowflake" ∧
    (QueryRouter.process_query
        (QueryRouter.Collab.mk (fun _ => .ok "data_query") (fun _ _ _ => .ok "SELECT 1")
          (fun _ _ => .ok "")
          (fun _ => .error "Query execution failed: could not connect to Snowflake")
          (fun _ => .ok []))
        ⟨[], []⟩ "total revenue").2.1 =
      ⟨QueryRouter.errAnswer "Query execution failed: could not connect to Snowflake",
        none, none,
        some "Query execution failed: could not connect to Snowflake"⟩ :=
  ⟨rfl, C6_error_wrapping _ _ _ _ rfl⟩

/-- C9: `process_query` leaves the router's state — the Schema Catalog
snapshot and the RAG document store — unchanged on every invocation,
whether it succeeds or returns an error result. -/
theorem C9_state_unchanged (c : QueryRouter.Collab) (st : QueryRouter.RouterState)
    (q : String) : (QueryRouter.process_query c st q).1 = st := by
  unfold QueryRouter.process_query
  rcases QueryRouter.process_query_core c st q with ⟨res, t⟩
  cases res <;> rfl

/-- C10: for every non-empty result table with fewer than two columns —
or with no numeric column at all — the summarization returns only the
row-count sentence, with no total and no row enumeration; totals and
enumeration therefore occur only with at least two columns and a numeric
column. -/
theorem C10_narrow_table_rowcount_only (d : DataFrame) (hne : d.rows ≠ [])
    (h : d.cols.length < 2 ∨ d.numericCols = []) :
    generate_natural_response (some d) =
      .ok ("Found " ++ toString d.rows.length ++ " results. ") := by
  have hlen : ¬ d.rows.length = 0 := by simpa using hne
  rcases h with h | h
  · have h2 : ¬ 2 ≤ d.cols.length := by omega
    simp [generate_natural_response, hlen, h2]
  · by_cases h2 : 2 ≤ d.cols.length
    · simp [generate_natural_response, hlen, h2, h]
    · simp [generate_natural_response, hlen, h2]

/-- Witness for C10: the single numeric column table with rows 10,20,30
produces only "Found 3 results. ". -/
theorem C10_narrow_table_rowcount_only_witness :
    (DataFrame.mk [("AMOUNT", true)] [[.int 10], [.int 20], [.int 30]]).rows ≠ [] ∧
    (DataFrame.mk [("AMOUNT", true)] [[.int 10], [.int 20], [.int 30]]).cols.length < 2 ∧
    generate_natural_response
        (some (DataFrame.mk [("AMOUNT", true)] [[.int 10], [.int 20], [.int 30]])) =
      .ok ("Found " ++ toString
        (DataFrame.mk [("AMOUNT", true)] [[.int 10], [.int 20], [.int 30]]).rows.length ++
        " results. ") :=
  ⟨by decide, by decide,
    C10_narrow_table_rowcount_only _ (by decide) (Or.inl (by decide))⟩

/-- C7: the classify step returns exactly the lower-cased, trimmed raw
model response; and any label other than "general"/"explanation" —
including unrecognized ones — sends the router down the data-query path,
which completes with `error = none` when the collaborators succeed: the
unrecognized label is never surfaced as a fatal error. -/
theorem C7_classification_default_policy :
    (∀ (c : QueryRouter.Collab) (q raw : String),
        c.rawClassify q = .ok raw →
        QueryRouter.classify_query c q = .ok (pyLowerStr (pyStripStr raw))) ∧
    (∀ (c : QueryRouter.Collab) (st : QueryRouter.RouterState)
        (q raw ctx rawsql ans : String) (df : DataFrame),
        c.rawClassify q = .ok raw →
        pyLowerStr (pyStripStr raw) ≠ "general" →
        pyLowerStr (pyStripStr raw) ≠ "explanation" →
        QueryRouter.get_relevant_contextE c st q = .ok ctx →
        c.rawGenSql (QueryRouter.format_schema_info st.schema_info) ctx q = .ok rawsql →
        c.execute_query (cleanSqlStr rawsql) = .ok df →
        generate_natural_response (some df) = .ok ans →
        QueryRouter.process_query c st q =
          (st, ⟨ans ++ QueryRouter.sqlDetails (cleanSqlStr rawsql), some df,
                some (cleanSqlStr rawsql), none⟩,
            [QueryRouter.Call.classify, QueryRouter.Call.retrieve,
              QueryRouter.Call.genSql, QueryRouter.Call.execute])) := by
  constructor
  · intro c q raw h
    unfold QueryRouter.classify_query
    rw [h]; rfl
  · intro c st q raw ctx rawsql ans df h1 h2 h3 h4 h5 h6 h7
    unfold QueryRouter.process_query QueryRouter.process_query_core
      QueryRouter.classify_query QueryRouter.generate_sql
    rw [h1]
    simp [Except.map, h2, h3, h4, h5, h6, h7]

instance {ε α : Type} [DecidableEq ε] [DecidableEq α] : DecidableEq (Except ε α) :=
  fun a b =>
    match a, b with
    | .ok x, .ok y =>
      if h : x = y then isTrue (by rw [h]) else isFalse (by simp [h])
    | .error x, .error y =>
      if h : x = y then isTrue (by rw [h]) else isFalse (by simp [h])
    | .ok _, .error _ => isFalse (by simp)
    | .error _, .ok _ => isFalse (by simp)

/-- Witness for C7: a classifier answering " BANANA " (an unrecognized
label) still yields a successful data-query result with no error. -/
theorem C7_classification_default_policy_witness :
    (QueryRouter.Collab.mk (fun _ => .ok " BANANA ")
        (fun _ _ _ => .ok "```sql\nSELECT 1\n```") (fun _ _ => .ok "")
        (fun _ => .ok ⟨[("A", true), ("B", true)], [[.int 1, .int 2]]⟩)
        (fun _ => .ok [])).rawClassify "q1" = .ok " BANANA " ∧
    pyLowerStr (pyStripStr " BANANA ") ≠ "general" ∧
    pyLowerStr (pyStripStr " BANANA ") ≠ "explanation" ∧
    QueryRouter.get_relevant_contextE
        (QueryRouter.Collab.mk (fun _ => .ok " BANANA ")
          (fun _ _ _ => .ok "```sql\nSELECT 1\n```") (fun _ _ => .ok "")
          (fun _ => .ok ⟨[("A", true), ("B", true)], [[.int 1, .int 2]]⟩)
          (fun _ => .ok []))
        ⟨[("T", [("C", "NUMBER")])], []⟩ "q1" = .ok "No relevant context found." ∧
    cleanSqlStr "```sql\nSELECT 1\n```" = "SELECT 1" ∧
    generate_natural_response (some ⟨[("A", true), ("B", true)], [[.int 1, .int 2]]⟩) =
      .ok "Found 1 results. The total A is 1.00. Here are all the results:\n\n• 1: 2.00\n" ∧
    QueryRouter.process_query
        (QueryRouter.Collab.mk (fun _ => .ok " BANANA ")
          (fun _ _ _ => .ok "```sql\nSELECT 1\n```") (fun _ _ => .ok "")
          (fun _ => .ok ⟨[("A", true), ("B", true)], [[.int 1, .int 2]]⟩)
          (fun _ => .ok []))
        ⟨[("T", [("C", "NUMBER")])], []⟩ "q1" =
      (⟨[("T", [("C", "NUMBER")])], []⟩,
        ⟨"Found 1 results. The total A is 1.00. Here are all the results:\n\n• 1: 2.00\n"
            ++ QueryRouter.sqlDetails "SELECT 1",
          some ⟨[("A", true), ("B", true)], [[.int 1, .int 2]]⟩,
          some "SELECT 1", none⟩,
        [QueryRouter.Call.classify, QueryRouter.Call.retrieve,
          QueryRouter.Call.genSql, QueryRouter.Call.execute]) := by
  have h2 : pyLowerStr (pyStripStr " BANANA ") ≠ "general" := by decide
  have h3 : pyLowerStr (pyStripStr " BANANA ") ≠ "explanation" := by decide
  have h4 : QueryRouter.get_relevant_contextE
      (QueryRouter.Collab.mk (fun _ => .ok " BANANA ")
        (fun _ _ _ => .ok "```sql\nSELECT 1\n```") (fun _ _ => .ok "")
        (fun _ => .ok ⟨[("A", true), ("B", true)], [[.int 1, .int 2]]⟩)
        (fun _ => .ok []))
      ⟨[("T", [("C", "NUMBER")])], []⟩ "q1" = .ok "No relevant context found." := by decide
  have h5 : (QueryRouter.Collab.mk (fun _ => .ok " BANANA ")
        (fun _ _ _ => .ok "```sql\nSELECT 1\n```") (fun _ _ => .ok "")
        (fun _ => .ok ⟨[("A", true), ("B", true)], [[.int 1, .int 2]]⟩)
        (fun _ => .ok [])).rawGenSql
      (QueryRouter.format_schema_info [("T", [("C", "NUMBER")])])
      "No relevant context found." "q1" = .ok "```sql\nSELECT 1\n```" := by decide
  have hclean : cleanSqlStr "```sql\nSELECT 1\n```" = "SELECT 1" := by decide
  have h6 : (QueryRouter.Collab.mk (fun _ => .ok " BANANA ")
        (fun _ _ _ => .ok "```sql\nSELECT 1\n```") (fun _ _ => .ok "")
        (fun _ => .ok ⟨[("A", true), ("B", true)], [[.int 1, .int 2]]⟩)
        (fun _ => .ok [])).execute_query (cleanSqlStr "```sql\nSELECT 1\n```") =
      .ok ⟨[("A", true), ("B", true)], [[.int 1, .int 2]]⟩ := by decide
  have h7 : generate_natural_response
      (some ⟨[("A", true), ("B", true)], [[.int 1, .int 2]]⟩) =
      .ok "Found 1 results. The total A is 1.00. Here are all the results:\n\n• 1: 2.00\n" := by
    decide
  have happ := C7_classification_default_policy.2
    (QueryRouter.Collab.mk (fun _ => .ok " BANANA ")
      (fun _ _ _ => .ok "```sql\nSELECT 1\n```") (fun _ _ => .ok "")
      (fun _ => .ok ⟨[("A", true), ("B", true)], [[.int 1, .int 2]]⟩)
      (fun _ => .ok []))
    ⟨[("T", [("C", "NUMBER")])], []⟩ "q1" " BANANA " "No relevant context found."
    "```sql\nSELECT 1\n```"
    "Found 1 results. The total A is 1.00. Here are all the results:\n\n• 1: 2.00\n"
    ⟨[("A", true), ("B", true)], [[.int 1, .int 2]]⟩
    rfl h2 h3 h4 h5 h6 h7
  rw [hclean] at happ
  exact ⟨rfl, h2, h3, h4, hclean, h7, happ⟩

/-- C4: over every non-empty store and every embedded query, retrieval
returns at most `k` chunks, all of them present in the store, ordered by
non-increasing similarity score with ties broken by insertion order
(earliest inserted first, as recorded by the ranked entries whose indices
point back into the store); and `k` at least the store size returns all
available chunks (a permutation of the store) rather than an error. -/
theorem C4_retrieve_ranking (store : List Chunk) (qv : List ℚ) (k : Nat)
    (hne : store ≠ []) :
    (RAGEngine.retrieve_context store qv k).length ≤ k ∧
    (∀ ch ∈ RAGEngine.retrieve_context store qv k, ch ∈ store) ∧
    RAGEngine.retrieve_context store qv k = (rankedQuery store qv k).map (·.chunk) ∧
    (rankedQuery store qv k).Pairwise rankLE ∧
    (∀ e ∈ rankedQuery store qv k,
        e.sim = simScore qv e.chunk ∧ store[e.idx]? = some e.chunk) ∧
    (RAGEngine.retrieve_context store qv k).Pairwise
      (fun a b => simScore qv b ≤ simScore qv a) ∧
    (store.length ≤ k → (RAGEngine.retrieve_context store qv k).Perm store) := by
  have hie : store.isEmpty = false := by
    cases store with
    | nil => exact absurd rfl hne
    | cons a l => rfl
  have heq : RAGEngine.retrieve_context store qv k =
      (rankedQuery store qv k).map (·.chunk) := by
    unfold RAGEngine.retrieve_context
    rw [hie]
    rfl
  refine ⟨?_, ?_, heq, rankedQuery_pairwise store qv k, ?_, ?_, ?_⟩
  · rw [heq, List.length_map]
    exact List.length_take_le _ _
  · intro ch hch
    rw [heq] at hch
    obtain ⟨e, he, rfl⟩ := List.mem_map.mp hch
    exact (mem_rankedQuery he).1
  · intro e he
    exact ⟨(mem_rankedQuery he).2.1, (mem_rankedQuery he).2.2⟩
  · rw [heq, List.pairwise_map]
    refine List.Pairwise.imp_of_mem ?_ (rankedQuery_pairwise store qv k)
    intro a b ha hb hr
    have hsa := (mem_rankedQuery ha).2.1
    have hsb := (mem_rankedQuery hb).2.1
    rcases hr with h | ⟨h, _⟩
    · rw [← hsa, ← hsb]; exact le_of_lt h
    · rw [← hsa, ← hsb, h]
  · intro hk
    rw [heq]
    exact rankedQuery_perm hk

/-- Witness for C4: a two-chunk store with orthogonal embeddings,
queried with `k = 1`. -/
theorem C4_retrieve_ranking_witness :
    ([Chunk.mk "a" "s1" [1, 0], Chunk.mk "b" "s2" [0, 1]] ≠ []) ∧
    ((RAGEngine.retrieve_context [Chunk.mk "a" "s1" [1, 0], Chunk.mk "b" "s2" [0, 1]] [1, 0] 1).length ≤ 1 ∧
      (∀ ch ∈ RAGEngine.retrieve_context [Chunk.mk "a" "s1" [1, 0], Chunk.mk "b" "s2" [0, 1]] [1, 0] 1,
          ch ∈ [Chunk.mk "a" "s1" [1, 0], Chunk.mk "b" "s2" [0, 1]]) ∧
      RAGEngine.retrieve_context [Chunk.mk "a" "s1" [1, 0], Chunk.mk "b" "s2" [0, 1]] [1, 0] 1 =
        (rankedQuery [Chunk.mk "a" "s1" [1, 0], Chunk.mk "b" "s2" [0, 1]] [1, 0] 1).map (·.chunk) ∧
      (rankedQuery [Chunk.mk "a" "s1" [1, 0], Chunk.mk "b" "s2" [0, 1]] [1, 0] 1).Pairwise rankLE ∧
      (∀ e ∈ rankedQuery [Chunk.mk "a" "s1" [1, 0], Chunk.mk "b" "s2" [0, 1]] [1, 0] 1,
          e.sim = simScore [1, 0] e.chunk ∧
          [Chunk.mk "a" "s1" [1, 0], Chunk.mk "b" "s2" [0, 1]][e.idx]? = some e.chunk) ∧
      (RAGEngine.retrieve_context [Chunk.mk "a" "s1" [1, 0], Chunk.mk "b" "s2" [0, 1]] [1, 0] 1).Pairwise
        (fun a b => simScore [1, 0] b ≤ simScore [1, 0] a) ∧
      (([Chunk.mk "a" "s1" [1, 0], Chunk.mk "b" "s2" [0, 1]] : List Chunk).length ≤ 1 →
        (RAGEngine.retrieve_context [Chunk.mk "a" "s1" [1, 0], Chunk.mk "b" "s2" [0, 1]] [1, 0] 1).Perm
          [Chunk.mk "a" "s1" [1, 0], Chunk.mk "b" "s2" [0, 1]])) :=
  ⟨by simp, C4_retrieve_ranking _ _ _ (by simp)⟩

/-- C8: ingesting the same document twice appends two independent chunk
sets (no deduplication); `add_documents` only ever appends, so every
previously stored chunk survives; and any chunk retrievable before a
second ingestion is still in the grown store and still retrievable from
it (with `k` the store size). -/
theorem C8_ingestion_monotone (chunksOf : RAGEngine.Doc → List Chunk)
    (store : List Chunk) (d : RAGEngine.Doc) (qv : List ℚ) :
    (RAGEngine.add_documents chunksOf (RAGEngine.add_documents chunksOf store [d]) [d] =
        store ++ chunksOf d ++ chunksOf d) ∧
    (∀ docs : List RAGEngine.Doc, ∀ ch ∈ store,
        ch ∈ RAGEngine.add_documents chunksOf store docs) ∧
    (∀ docs : List RAGEngine.Doc, ∃ rest,
        RAGEngine.add_documents chunksOf store docs = store ++ rest) ∧
    (∀ (k : Nat), ∀ ch ∈ RAGEngine.retrieve_context store qv k,
        ch ∈ RAGEngine.add_documents chunksOf
              (RAGEngine.add_documents chunksOf store [d]) [d] ∧
        ch ∈ RAGEngine.retrieve_context
              (RAGEngine.add_documents chunksOf (RAGEngine.add_documents chunksOf store [d]) [d])
              qv
              (RAGEngine.add_documents chunksOf
                (RAGEngine.add_documents chunksOf store [d]) [d]).length) := by
  have hadd : ∀ (s : List Chunk) (docs : List RAGEngine.Doc),
      RAGEngine.add_documents chunksOf s docs = s ++ (docs.map chunksOf).flatten :=
    fun _ _ => rfl
  refine ⟨?_, ?_, ?_, ?_⟩
  · rw [hadd, hadd]
    simp [List.append_assoc]
  · intro docs ch hch
    rw [hadd]
    exact List.mem_append_left _ hch
  · intro docs
    exact ⟨_, rfl⟩
  · intro k ch hch
    have hs : ch ∈ store := by
      unfold RAGEngine.retrieve_context at hch
      split at hch
      · simp at hch
      · obtain ⟨e, he, rfl⟩ := List.mem_map.mp hch
        exact (mem_rankedQuery he).1
    have hmem2 : ch ∈ RAGEngine.add_documents chunksOf
        (RAGEngine.add_documents chunksOf store [d]) [d] := by
      rw [hadd, hadd]
      exact List.mem_append_left _ (List.mem_append_left _ hs)
    refine ⟨hmem2, ?_⟩
    have hie : (RAGEngine.add_documents chunksOf
        (RAGEngine.add_documents chunksOf store [d]) [d]).isEmpty = false := by
      rcases h0 : RAGEngine.add_documents chunksOf
          (RAGEngine.add_documents chunksOf store [d]) [d] with _ | ⟨a, l⟩
      · rw [h0] at hmem2; simp at hmem2
      · rfl
    unfold RAGEngine.retrieve_context
    rw [hie]
    simp only [Bool.false_eq_true, if_false]
    exact (rankedQuery_perm (Nat.le_refl _)).mem_iff.mpr hmem2

/-- Witness for C8: a singleton store whose only chunk is retrieved with
`k = 1` and survives two further ingestions of the same document. -/
theorem C8_ingestion_monotone_witness :
    Chunk.mk "t" "s" [1] ∈
      RAGEngine.retrieve_context [Chunk.mk "t" "s" [1]] [1] 1 ∧
    (Chunk.mk "t" "s" [1] ∈
        RAGEngine.add_documents (fun doc => [Chunk.mk doc.page_content doc.source [1]])
          (RAGEngine.add_documents (fun doc => [Chunk.mk doc.page_content doc.source [1]])
            [Chunk.mk "t" "s" [1]] [RAGEngine.Doc.mk "x" "y"]) [RAGEngine.Doc.mk "x" "y"] ∧
      Chunk.mk "t" "s" [1] ∈
        RAGEngine.retrieve_context
          (RAGEngine.add_documents (fun doc => [Chunk.mk doc.page_content doc.source [1]])
            (RAGEngine.add_documents (fun doc => [Chunk.mk doc.page_content doc.source [1]])
              [Chunk.mk "t" "s" [1]] [RAGEngine.Doc.mk "x" "y"]) [RAGEngine.Doc.mk "x" "y"])
          [1]
          (RAGEngine.add_documents (fun doc => [Chunk.mk doc.page_content doc.source [1]])
            (RAGEngine.add_documents (fun doc => [Chunk.mk doc.page_content doc.source [1]])
              [Chunk.mk "t" "s" [1]] [RAGEngine.Doc.mk "x" "y"]) [RAGEngine.Doc.mk "x" "y"]).length) :=
  ⟨by decide,
    C8_ingestion_monotone (fun doc => [Chunk.mk doc.page_content doc.source [1]])
      [Chunk.mk "t" "s" [1]] (RAGEngine.Doc.mk "x" "y") [1] |>.2.2.2 1
      (Chunk.mk "t" "s" [1]) (by decide)⟩

/-- C2 counterexample: the raw response "  SELECT 1" contains no backtick
(hence no code fence), yet the post-processing is not a no-op — the
surrounding whitespace is stripped, so the string is not returned
unchanged.  Moreover, for a fence with a language tag other than "sql"
(here "json"), the cleaned query is not the trimmed inner text: the tag
text "json" is left at the front of the query. -/
theorem C2_counterexample_strip_not_noop :
    (('`' ∉ "  SELECT 1".data) ∧
      clean_sql "  SELECT 1".data ≠ "  SELECT 1".data) ∧
    (clean_sql ("```json\nSELECT 1\n```".data) ≠ pystrip "\nSELECT 1\n".data ∧
      clean_sql ("```json\nSELECT 1\n```".data) = "json\nSELECT 1".data) :=
  ⟨⟨by decide, by decide⟩, by decide, by decide⟩

/-- C2 (amended): for every raw response that is an inner text wrapped in
triple-backtick fences (with the "sql" language tag or without one; the
inner text non-empty, containing no backtick and not itself starting with
the letters "sql"), the post-processed query equals the whitespace-trimmed
inner text with no stray fence characters; and for every raw response
whose trimmed form neither starts nor ends with a fence, post-processing
coincides with Python strip — a no-op exactly up to surrounding
whitespace. -/
theorem C2_fence_cleanup_amended :
    (∀ t : List Char, t ≠ [] → (∀ ch ∈ t, ch ≠ '`') → ¬ (['s', 'q', 'l'] <+: t) →
        clean_sql (fence3 ++ t ++ fence3) = pystrip t ∧
        clean_sql (tagSql ++ t ++ fence3) = pystrip t) ∧
    (∀ s : List Char, ¬ (fence3 <+: pystrip s) → ¬ (fence3 <:+ pystrip s) →
        clean_sql s = pystrip s) := by
  constructor
  · intro t hne hbt hsql
    constructor
    · have hshape : fence3 ++ t ++ fence3 = '`' :: (('`' :: '`' :: t) ++ fence3) := by
        simp [fence3]
      have hnt : ¬ (tagSql <+: fence3 ++ t ++ fence3) := by
        intro hp
        rw [List.append_assoc] at hp
        exact sql_not_prefix_append_fence hne hsql (prefix_cancel_fence hp)
      unfold clean_sql
      rw [hshape, pystrip_tick_wrap, ← hshape, dropTag_of_not hnt,
        List.append_assoc, dropOpenFence_append, dropCloseFence_append]
    · have hshape : tagSql ++ t ++ fence3 =
          '`' :: (('`' :: '`' :: 's' :: 'q' :: 'l' :: t) ++ fence3) := by
        simp [tagSql]
      have hnf : ¬ (fence3 <+: t ++ fence3) := backtick_not_prefix_append hne hbt
      unfold clean_sql
      rw [hshape, pystrip_tick_wrap, ← hshape, List.append_assoc, dropTag_append,
        dropOpenFence_of_not hnf, dropCloseFence_append]
  · intro s hnp hns
    have hnt : ¬ (tagSql <+: pystrip s) := by
      intro hp
      exact hnp (List.IsPrefix.trans (by decide : fence3 <+: tagSql) hp)
    unfold clean_sql
    rw [dropTag_of_not hnt, dropOpenFence_of_not hnp, dropCloseFence_of_not hns,
      pystrip_idem]

/-- Witness for C2 (amended) at the inner text "SELECT 1": both fenced
inputs clean to the trimmed inner text, and the fence-free " SELECT 2"
cleans to its whitespace-trimmed form. -/
theorem C2_fence_cleanup_amended_witness :
    ("SELECT 1".data ≠ [] ∧ (∀ ch ∈ "SELECT 1".data, ch ≠ '`') ∧
      ¬ (['s', 'q', 'l'] <+: "SELECT 1".data) ∧
      clean_sql (fence3 ++ "SELECT 1".data ++ fence3) = pystrip "SELECT 1".data ∧
      clean_sql (tagSql ++ "SELECT 1".data ++ fence3) = pystrip "SELECT 1".data) ∧
    (¬ (fence3 <+: pystrip " SELECT 2".data) ∧
      ¬ (fence3 <:+ pystrip " SELECT 2".data) ∧
      clean_sql " SELECT 2".data = pystrip " SELECT 2".data) := by
  have ha := C2_fence_cleanup_amended.1 "SELECT 1".data (by decide) (by decide) (by decide)
  have hb := C2_fence_cleanup_amended.2 " SELECT 2".data (by decide) (by decide)
  exact ⟨⟨by decide, by decide, by decide, ha.1, ha.2⟩, by decide, by decide, hb⟩

end SCAP
